import Mathlib

/-!
Shallow embedding of the upload admission gateway in `api/upload.ts` of the
`vite-supabase-bucket` repository.

The serverless handler is modelled as a pure function.  Machine integers
(JavaScript numbers holding `Date.now()` values, counters and sizes) are
modelled as `Nat`; the in-memory `Map` of rate windows is modelled as a
function `String → Option RateRecord`; the external collaborators
(`Buffer.from(_, 'base64')` decoding, the Supabase storage client) are
passed in as explicit parameters, and the calls the handler makes to the
storage collaborator are recorded in an output trace.
-/

/-- One entry of the `uploadCounts` map:
`{ count: number; resetTime: number }` in `api/upload.ts`. -/
structure RateRecord where
  count : Nat
  resetTime : Nat
deriving Repr, DecidableEq

/-- The in-memory `uploadCounts : Map<string, {count, resetTime}>`. -/
def RateState : Type := String → Option RateRecord

/-- `WINDOW_DURATION`: the code writes `now + 60 * 60 * 1000` (one hour in
milliseconds). -/
def WINDOW_DURATION : Nat := 60 * 60 * 1000

/-- `MAX_PER_WINDOW`: the code compares `record.count >= 5`. -/
def MAX_PER_WINDOW : Nat := 5

/-- `isRateLimited(ip)` from `api/upload.ts`, with the implicit state made
explicit: it receives `Date.now()` and the current map, and returns the
boolean result together with the updated map.

```ts
const now = Date.now()
const record = uploadCounts.get(ip)
if (!record || now > record.resetTime) {
  uploadCounts.set(ip, { count: 1, resetTime: now + 60 * 60 * 1000 })
  return false
}
if (record.count >= 5) { return true }
record.count++
return false
```
-/
def isRateLimited (now : Nat) (state : RateState) (ip : String) :
    Bool × RateState :=
  match state ip with
  | none =>
    (false, fun k => if k = ip then some ⟨1, now + WINDOW_DURATION⟩ else state k)
  | some record =>
    if now > record.resetTime then
      (false, fun k => if k = ip then some ⟨1, now + WINDOW_DURATION⟩ else state k)
    else if record.count ≥ MAX_PER_WINDOW then
      (true, state)
    else
      (false, fun k =>
        if k = ip then some ⟨record.count + 1, record.resetTime⟩ else state k)

/-- Runs a sequence of `isRateLimited` calls for one client, threading the
map through; returns the list of results (in call order) and the final map. -/
def admitResults (times : List Nat) (st : RateState) (ip : String) :
    List Bool × RateState :=
  match times with
  | [] => ([], st)
  | t :: rest =>
    let r := isRateLimited t st ip
    let next := admitResults rest r.2 ip
    (r.1 :: next.1, next.2)

/-- The character class `\s` of a JavaScript regex: tab, line feed,
vertical tab, form feed, carriage return, space, and the Unicode
white-space code points (NBSP, OGHAM SPACE MARK, EN QUAD … HAIR SPACE,
LINE/PARAGRAPH SEPARATOR, NARROW NBSP, MEDIUM MATHEMATICAL SPACE,
IDEOGRAPHIC SPACE, BOM). -/
def isJsSpace (c : Char) : Bool :=
  decide (c.toNat = 9 ∨ c.toNat = 10 ∨ c.toNat = 11 ∨ c.toNat = 12 ∨
    c.toNat = 13 ∨ c.toNat = 32 ∨ c.toNat = 160 ∨ c.toNat = 5760 ∨
    (8192 ≤ c.toNat ∧ c.toNat ≤ 8202) ∨ c.toNat = 8232 ∨ c.toNat = 8233 ∨
    c.toNat = 8239 ∨ c.toNat = 8287 ∨ c.toNat = 12288 ∨ c.toNat = 65279)

/-- Membership in the character class `[a-zA-Z0-9.\-_\s]`: the characters
that `filename.replace(/[^a-zA-Z0-9.\-_\s]/g, '')` keeps. -/
def keptChar (c : Char) : Bool :=
  decide ((97 ≤ c.toNat ∧ c.toNat ≤ 122) ∨ (65 ≤ c.toNat ∧ c.toNat ≤ 90) ∨
    (48 ≤ c.toNat ∧ c.toNat ≤ 57) ∨ c.toNat = 46 ∨ c.toNat = 45 ∨
    c.toNat = 95) || isJsSpace c

/-- `.replace(/\s+/g, '-')`: every maximal run of `\s` characters becomes a
single `'-'`.  The boolean argument records whether the previous character
belonged to a run of whitespace. -/
def collapseSpaces : Bool → List Char → List Char
  | _, [] => []
  | prevSpace, c :: rest =>
    if isJsSpace c then
      if prevSpace then collapseSpaces true rest
      else '-' :: collapseSpaces true rest
    else c :: collapseSpaces false rest

/-- `sanitizeFileName(filename)` from `api/upload.ts`:

```ts
return filename
  .replace(/[^a-zA-Z0-9.\-_\s]/g, '')
  .replace(/\s+/g, '-')
  .toLowerCase()
```
(after the first two steps every character is ASCII, so `Char.toLower`
coincides with JavaScript `toLowerCase`). -/
def sanitizeFileName (filename : String) : String :=
  String.mk (((collapseSpaces false (filename.toList.filter keptChar)).map
    Char.toLower))

/-- JavaScript `String.prototype.split(sep)` for a one-character separator,
on explicit character lists: `''.split('.')` is `['']`, separators at the
ends produce empty fields. -/
def splitOnChar (sep : Char) : List Char → List (List Char)
  | [] => [[]]
  | c :: rest =>
    match splitOnChar sep rest with
    | [] => [[]]
    | f :: fs => if c = sep then [] :: f :: fs else (c :: f) :: fs

/-- `sanitized.replace(/\.[^/.]+$/, '')`: drop a final `.ext` where `ext`
is one or more characters none of which is `'.'` or `'/'`; otherwise the
string is unchanged.  Expressed through `splitOnChar '.'`: the regex
matches exactly when there are at least two dot-separated fields and the
last one is nonempty and free of `'/'`. -/
def stripDotExt (l : List Char) : List Char :=
  let parts := splitOnChar '.' l
  let lastPart := parts.getLastD []
  if 2 ≤ parts.length ∧ lastPart ≠ [] ∧ '/' ∉ lastPart then
    List.intercalate ['.'] parts.dropLast
  else l

/-- `generateFileName(originalName)` from `api/upload.ts`, with `Date.now()`
passed in as `timestamp`:

```ts
const sanitized = sanitizeFileName(originalName)
const extension = sanitized.split('.').pop()
const nameWithoutExtension = sanitized.replace(/\.[^/.]+$/, '')
return `${timestamp}-${nameWithoutExtension}.${extension}`
```
-/
def generateFileName (timestamp : Nat) (originalName : String) : String :=
  let sanitized := (sanitizeFileName originalName).toList
  let extension := (splitOnChar '.' sanitized).getLastD []
  let nameWithoutExtension := stripDotExt sanitized
  Nat.repr timestamp ++ "-" ++ String.mk nameWithoutExtension ++ "." ++
    String.mk extension

/-- Decimal rendering of a natural number, most significant digit first:
a recursion-friendly specification of `Nat.repr`. -/
def decRepr (n : Nat) : List Char :=
  if h : n < 10 then [Nat.digitChar n]
  else decRepr (n / 10) ++ [Nat.digitChar (n % 10)]
decreasing_by exact Nat.div_lt_self (by omega) (by omega)

/-- `getClientIP(req)` from `api/upload.ts`:

```ts
return (
  (req.headers['x-forwarded-for'] as string)?.split(',')[0] ||
  (req.headers['x-real-ip'] as string) ||
  'unknown'
)
```
`||` falls through on JavaScript falsy values: an absent header
(`undefined`) and the empty string alike. -/
def getClientIP (xForwardedFor xRealIP : Option String) : String :=
  let forwarded :=
    match xForwardedFor with
    | some s => String.mk ((splitOnChar ',' s.toList).headD [])
    | none => ""
  if forwarded ≠ "" then forwarded
  else
    match xRealIP with
    | some r => if r ≠ "" then r else "unknown"
    | none => "unknown"

/-- Modelled from the spec's words (for comparison with `getClientIP`):
"Order of preference: first value of a comma-separated forwarded-address
header; else a real-address header; else the sentinel `"unknown"`." -/
def clientKeySpec : Option String → Option String → String
  | some s, _ => String.mk ((splitOnChar ',' s.toList).headD [])
  | none, some r => r
  | none, none => "unknown"

/-- The real-address fallback of the amended C8: the real-address header
when present and non-empty, else the sentinel. -/
def realIPFallback : Option String → String
  | some r => if r = "" then "unknown" else r
  | none => "unknown"

/-- The amended C8 choice: the first comma-separated value of the
forwarded-address header when present and non-empty, else
`realIPFallback`. -/
def clientKeyAmended : Option String → Option String → String
  | some s, rip =>
    if String.mk ((splitOnChar ',' s.toList).headD []) = "" then
      realIPFallback rip
    else String.mk ((splitOnChar ',' s.toList).headD [])
  | none, rip => realIPFallback rip

/-- `validatePDF(buffer)` from `api/upload.ts`:

```ts
const pdfHeader = buffer.slice(0, 4).toString()
return pdfHeader === '%PDF'
```
A byte buffer is a `List Nat`; the UTF-8 decoding of `buffer.slice(0, 4)`
equals `"%PDF"` exactly when those bytes are `[0x25, 0x50, 0x44, 0x46]`
(`'%'`, `'P'`, `'D'`, `'F'`), which also forces the buffer to hold at
least four bytes. -/
def validatePDF (buffer : List Nat) : Bool :=
  buffer.take 4 == [37, 80, 68, 70]

/-- `maxSize`: `5 * 1024 * 1024` bytes (5 MiB). -/
def maxSize : Nat := 5 * 1024 * 1024

/-- `oneYear`: the signed-URL validity horizon, in seconds. -/
def oneYear : Nat := 31536000

/-- JavaScript `String.prototype.includes`. -/
def strIncludes (s needle : String) : Bool :=
  s.toList.tails.any (fun t => needle.toList.isPrefixOf t)

/-- The transport gate `contentType?.includes('multipart/form-data')`:
`false` when the header is absent. -/
def contentTypeOk : Option String → Bool
  | some ct => strIncludes ct "multipart/form-data"
  | none => false

/-- The three fields the handler destructures from the JSON body:
`{ fileData, fileName, fileSize }`. -/
structure UploadBody where
  fileData : String
  fileName : String
  fileSize : Nat
deriving Repr, DecidableEq

/-- The parts of the incoming request the handler reads: the method, the
two client-address headers, the transport content-type header, and the
parsed body (`none` models a missing/non-object `req.body`). -/
structure UploadRequest where
  method : String
  xForwardedFor : Option String
  xRealIP : Option String
  contentType : Option String
  body : Option UploadBody
deriving Repr, DecidableEq

/-- One call to the storage collaborator: `supabase.storage.from(...)
.upload(key, bytes, ...)` or `.createSignedUrl(key, ttl, {download})`. -/
inductive StorageCall where
  | put (key : String) (bytes : List Nat)
  | signUrl (key : String) (forceDownload : Bool)
deriving Repr, DecidableEq

/-- The storage collaborator's responses for one request: the error (if
any) of the `upload` call, and the results of the two `createSignedUrl`
calls (`none` models an error result). -/
structure StorageOracle where
  uploadError : Option String
  viewUrl : Option String
  downloadUrl : Option String
deriving Repr, DecidableEq

/-- The handler's outcome: an error JSON `{error: msg}` with its HTTP
status, or the 200 success payload. -/
inductive HandlerResult where
  | errorResp (status : Nat) (msg : String)
  | success (name viewUrl downloadUrl : String) (expiresAt : Nat)
deriving Repr, DecidableEq

/-- The exported request `handler` of `api/upload.ts`, as a pure function.
`now` stands for `Date.now()`, `decodeBase64` for
`Buffer.from(fileData, 'base64')`, and `oracle` for the Supabase storage
collaborator.  Besides the response it returns the updated rate-limit map
and the list of storage-collaborator calls it performed, in order.  The
`try/catch` wrapper is not modelled: no modelled step throws. -/
def handler (now : Nat) (decodeBase64 : String → List Nat)
    (oracle : StorageOracle) (st : RateState) (req : UploadRequest) :
    HandlerResult × RateState × List StorageCall :=
  if req.method ≠ "POST" then
    (.errorResp 405 "Method not allowed", st, [])
  else
    let rl := isRateLimited now st (getClientIP req.xForwardedFor req.xRealIP)
    if rl.1 then
      (.errorResp 429 "Too many uploads. Please try again later.", rl.2, [])
    else if !contentTypeOk req.contentType then
      (.errorResp 400 "Invalid content type", rl.2, [])
    else
      match req.body with
      | none => (.errorResp 400 "No file provided", rl.2, [])
      | some body =>
        if body.fileData = "" ∨ body.fileName = "" then
          (.errorResp 400 "Missing file data or name", rl.2, [])
        else if body.fileSize > maxSize then
          (.errorResp 400 "File too large. Max size is 5MB.", rl.2, [])
        else
          let fileBuffer := decodeBase64 body.fileData
          if !validatePDF fileBuffer then
            (.errorResp 400 "Invalid PDF file", rl.2, [])
          else
            let uniqueFileName := generateFileName now body.fileName
            match oracle.uploadError with
            | some _ =>
              (.errorResp 500 "Upload failed", rl.2,
                [StorageCall.put uniqueFileName fileBuffer])
            | none =>
              match oracle.viewUrl, oracle.downloadUrl with
              | some vu, some du =>
                (.success body.fileName vu du (now + oneYear * 1000), rl.2,
                  [StorageCall.put uniqueFileName fileBuffer,
                    StorageCall.signUrl uniqueFileName false,
                    StorageCall.signUrl uniqueFileName true])
              | _, _ =>
                (.errorResp 500 "Failed to generate URLs", rl.2,
                  [StorageCall.put uniqueFileName fileBuffer,
                    StorageCall.signUrl uniqueFileName false,
                    StorageCall.signUrl uniqueFileName true])

/-- Step lemma: no record for `ip` — a fresh window `{count: 1, resetTime:
now + WINDOW_DURATION}` is installed and the call is admitted. -/
theorem isRateLimited_fresh (now : Nat) (st : RateState) (ip : String)
    (h : st ip = none) :
    (isRateLimited now st ip).1 = false ∧
    (isRateLimited now st ip).2 ip = some ⟨1, now + WINDOW_DURATION⟩ := by
  simp [isRateLimited, h]

/-- Step lemma: a live window (`now ≤ resetTime`) with spare budget is
incremented in place and the call is admitted. -/
theorem isRateLimited_incr (now : Nat) (st : RateState) (ip : String)
    (c r : Nat) (h : st ip = some ⟨c, r⟩) (hlive : now ≤ r)
    (hc : c < MAX_PER_WINDOW) :
    (isRateLimited now st ip).1 = false ∧
    (isRateLimited now st ip).2 ip = some ⟨c + 1, r⟩ := by
  simp [isRateLimited, h, Nat.not_lt.mpr hlive, Nat.not_le.mpr hc]

/-- Step lemma: a live window that has reached the cap rejects the call and
the map is returned untouched. -/
theorem isRateLimited_reject (now : Nat) (st : RateState) (ip : String)
    (c r : Nat) (h : st ip = some ⟨c, r⟩) (hlive : now ≤ r)
    (hc : MAX_PER_WINDOW ≤ c) :
    (isRateLimited now st ip).1 = true ∧
    (isRateLimited now st ip).2 = st := by
  simp [isRateLimited, h, Nat.not_lt.mpr hlive, hc]

/-- Step lemma: an expired window (`now > resetTime`, strictly) is replaced
by a fresh one and the call is admitted. -/
theorem isRateLimited_expired (now : Nat) (st : RateState) (ip : String)
    (c r : Nat) (h : st ip = some ⟨c, r⟩) (hexp : r < now) :
    (isRateLimited now st ip).1 = false ∧
    (isRateLimited now st ip).2 ip = some ⟨1, now + WINDOW_DURATION⟩ := by
  simp [isRateLimited, h, hexp]

/-- C2: from a fresh ClientKey, five consecutive admit calls inside one
window succeed, the sixth is rejected, and once the current time is past
the window's `resetTime` the next call succeeds again as the first call of
a new window. -/
theorem rate_window_five_then_reset
    (st : RateState) (ip : String) (t1 t2 t3 t4 t5 t6 t7 : Nat)
    (hfresh : st ip = none)
    (h12 : t1 ≤ t2) (h23 : t2 ≤ t3) (h34 : t3 ≤ t4) (h45 : t4 ≤ t5)
    (h56 : t5 ≤ t6) (hwin : t6 ≤ t1 + WINDOW_DURATION)
    (hpast : t1 + WINDOW_DURATION < t7) :
    (admitResults [t1, t2, t3, t4, t5, t6, t7] st ip).1 =
      [false, false, false, false, false, true, false] ∧
    (admitResults [t1, t2, t3, t4, t5, t6, t7] st ip).2 ip =
      some ⟨1, t7 + WINDOW_DURATION⟩ := by
  obtain ⟨b1, s1⟩ := isRateLimited_fresh t1 st ip hfresh
  obtain ⟨b2, s2⟩ := isRateLimited_incr t2 _ ip 1 _ s1 (by omega) (by decide)
  obtain ⟨b3, s3⟩ := isRateLimited_incr t3 _ ip 2 _ s2 (by omega) (by decide)
  obtain ⟨b4, s4⟩ := isRateLimited_incr t4 _ ip 3 _ s3 (by omega) (by decide)
  obtain ⟨b5, s5⟩ := isRateLimited_incr t5 _ ip 4 _ s4 (by omega) (by decide)
  obtain ⟨b6, s6⟩ := isRateLimited_reject t6 _ ip 5 _ s5 (by omega) (by decide)
  have s6' : (isRateLimited t6 (isRateLimited t5 (isRateLimited t4
      (isRateLimited t3 (isRateLimited t2 (isRateLimited t1 st ip).2 ip).2
        ip).2 ip).2 ip).2 ip).2 ip = some ⟨5, t1 + WINDOW_DURATION⟩ := by
    rw [s6]; exact s5
  obtain ⟨b7, s7⟩ := isRateLimited_expired t7 _ ip 5 _ s6' hpast
  refine ⟨by simp [admitResults, b1, b2, b3, b4, b5, b6, b7], ?_⟩
  simp only [admitResults]
  exact s7

/-- C2 witness: a concrete seven-call run for a fresh client. -/
theorem rate_window_five_then_reset_witness :
    (admitResults [10, 10, 10, 10, 10, 10, 10 + WINDOW_DURATION + 1]
      (fun _ => none) "203.0.113.7").1 =
      [false, false, false, false, false, true, false] ∧
    (admitResults [10, 10, 10, 10, 10, 10, 10 + WINDOW_DURATION + 1]
      (fun _ => none) "203.0.113.7").2 "203.0.113.7" =
      some ⟨1, 10 + WINDOW_DURATION + 1 + WINDOW_DURATION⟩ :=
  rate_window_five_then_reset (fun _ => none) "203.0.113.7"
    10 10 10 10 10 10 (10 + WINDOW_DURATION + 1) rfl
    (by decide) (by decide) (by decide) (by decide) (by decide)
    (by decide) (by decide)

/-- C3 counterexample: a window `{count := 5, resetTime := 100}` and a call
at `now = 100` (so `now ≥ resetTime`): the code rejects the call and leaves
the window untouched, instead of replacing it with `{count := 1, resetTime
:= now + WINDOW_DURATION}` and admitting as the claim states for the
`now = resetAt` boundary. -/
theorem rate_boundary_counterexample :
    (fun k => if k = "203.0.113.7" then some (⟨5, 100⟩ : RateRecord)
        else none) "203.0.113.7" = some ⟨5, 100⟩ ∧
    (100 : Nat) ≥ 100 ∧
    (isRateLimited 100
      (fun k => if k = "203.0.113.7" then some ⟨5, 100⟩ else none)
      "203.0.113.7").1 = true ∧
    (isRateLimited 100
      (fun k => if k = "203.0.113.7" then some ⟨5, 100⟩ else none)
      "203.0.113.7").2 "203.0.113.7" = some ⟨5, 100⟩ := by
  refine ⟨by decide, by decide, by decide, by decide⟩

/-- C3 (amended): the window is replaced by `{count := 1, resetTime := now
+ WINDOW_DURATION}` and the call admitted exactly when the current time is
strictly greater than `resetTime`; at `now = resetAt` the window is still
treated as live. -/
theorem rate_reset_strictly_after (now : Nat) (st : RateState) (ip : String)
    (c r : Nat) (h : st ip = some ⟨c, r⟩) (hgt : r < now) :
    (isRateLimited now st ip).1 = false ∧
    (isRateLimited now st ip).2 ip = some ⟨1, now + WINDOW_DURATION⟩ := by
  simp [isRateLimited, h, hgt]

/-- C3 (amended) witness. -/
theorem rate_reset_strictly_after_witness :
    (isRateLimited 101
      (fun k => if k = "203.0.113.7" then some ⟨5, 100⟩ else none)
      "203.0.113.7").1 = false ∧
    (isRateLimited 101
      (fun k => if k = "203.0.113.7" then some ⟨5, 100⟩ else none)
      "203.0.113.7").2 "203.0.113.7" = some ⟨1, 101 + WINDOW_DURATION⟩ :=
  rate_reset_strictly_after 101 _ "203.0.113.7" 5 100 (by decide) (by decide)

/-- C4: a call rejected because the live window's count has reached
`MAX_PER_WINDOW` leaves the whole map — in particular that key's window —
completely unchanged. -/
theorem rate_reject_keeps_window (now : Nat) (st : RateState) (ip : String)
    (c r : Nat) (h : st ip = some ⟨c, r⟩) (hlive : now ≤ r)
    (hc : MAX_PER_WINDOW ≤ c) :
    (isRateLimited now st ip).1 = true ∧
    (isRateLimited now st ip).2 = st := by
  simp [isRateLimited, h, Nat.not_lt.mpr hlive, hc]

/-- C4 witness. -/
theorem rate_reject_keeps_window_witness :
    (isRateLimited 50
      (fun k => if k = "203.0.113.7" then some ⟨5, 100⟩ else none)
      "203.0.113.7").1 = true ∧
    (isRateLimited 50
      (fun k => if k = "203.0.113.7" then some ⟨5, 100⟩ else none)
      "203.0.113.7").2 =
      (fun k => if k = "203.0.113.7" then some ⟨5, 100⟩ else none) :=
  rate_reject_keeps_window 50 _ "203.0.113.7" 5 100 (by decide) (by decide)
    (by decide)

/-- With enough fuel, `Nat.toDigitsCore` in base 10 agrees with the direct
recursion `decRepr`, prepending the digits to the accumulator. -/
theorem toDigitsCore_eq_decRepr (f : Nat) :
    ∀ n ds, n < f → Nat.toDigitsCore 10 f n ds = decRepr n ++ ds := by
  induction f with
  | zero => intro n ds h; omega
  | succ f ih =>
    intro n ds h
    rw [decRepr]
    by_cases h10 : n < 10
    · have hdiv : n / 10 = 0 := Nat.div_eq_of_lt h10
      simp [Nat.toDigitsCore, hdiv, h10, Nat.mod_eq_of_lt h10]
    · have hdiv : n / 10 ≠ 0 := by
        intro hc; exact h10 (by omega : n < 10)
      have hlt : n / 10 < f := by
        have := Nat.div_lt_self (by omega : 0 < n) (by omega : 1 < 10)
        omega
      simp only [Nat.toDigitsCore, hdiv, if_false, h10, dite_false]
      rw [ih (n / 10) (Nat.digitChar (n % 10) :: ds) hlt]
      simp

/-- `Nat.repr` is the string made of `decRepr`'s characters. -/
theorem repr_eq_decRepr (n : Nat) : Nat.repr n = String.mk (decRepr n) := by
  show (Nat.toDigits 10 n).asString = String.mk (decRepr n)
  rw [Nat.toDigits, toDigitsCore_eq_decRepr (n + 1) n [] (Nat.lt_succ_self n)]
  simp [List.asString]

/-- A decimal rendering is never empty. -/
theorem decRepr_ne_nil (n : Nat) : decRepr n ≠ [] := by
  rw [decRepr]
  split
  · simp
  · simp

/-- `Nat.digitChar` is injective on single digits. -/
theorem digitChar_inj_lt (a b : Nat) (ha : a < 10) (hb : b < 10)
    (h : Nat.digitChar a = Nat.digitChar b) : a = b := by
  interval_cases a <;> interval_cases b <;> simp_all [Nat.digitChar]

/-- Unfolding of `decRepr` on a single digit. -/
theorem decRepr_lt10 (n : Nat) (h : n < 10) :
    decRepr n = [Nat.digitChar n] := by
  rw [decRepr]; simp [h]

/-- Unfolding of `decRepr` on a multi-digit number. -/
theorem decRepr_ge10 (n : Nat) (h : ¬ n < 10) :
    decRepr n = decRepr (n / 10) ++ [Nat.digitChar (n % 10)] := by
  rw [decRepr]; simp [h]

/-- Distinct naturals have distinct decimal renderings. -/
theorem decRepr_injective : ∀ m n : Nat, decRepr m = decRepr n → m = n := by
  intro m
  induction m using Nat.strong_induction_on with
  | _ m ih =>
    intro n h
    by_cases hm : m < 10 <;> by_cases hn : n < 10
    · rw [decRepr_lt10 m hm, decRepr_lt10 n hn] at h
      exact digitChar_inj_lt m n hm hn (by simpa using h)
    · rw [decRepr_lt10 m hm, decRepr_ge10 n hn] at h
      have hlen := congrArg List.length h
      simp at hlen
      have hne := decRepr_ne_nil (n / 10)
      cases hd : decRepr (n / 10) with
      | nil => exact absurd hd hne
      | cons x xs => rw [hd] at hlen; simp at hlen
    · rw [decRepr_ge10 m hm, decRepr_lt10 n hn] at h
      have hlen := congrArg List.length h
      simp at hlen
      have hne := decRepr_ne_nil (m / 10)
      cases hd : decRepr (m / 10) with
      | nil => exact absurd hd hne
      | cons x xs => rw [hd] at hlen; simp at hlen
    · rw [decRepr_ge10 m hm, decRepr_ge10 n hn] at h
      have hrev := congrArg List.reverse h
      simp only [List.reverse_append, List.reverse_singleton,
        List.singleton_append] at hrev
      obtain ⟨hdig, hrest⟩ := List.cons.inj hrev
      have hdeq : decRepr (m / 10) = decRepr (n / 10) :=
        List.reverse_injective hrest
      have hdivlt : m / 10 < m := Nat.div_lt_self (by omega) (by omega)
      have hdiv := ih (m / 10) hdivlt (n / 10) hdeq
      have hmod := digitChar_inj_lt (m % 10) (n % 10)
        (Nat.mod_lt _ (by omega)) (Nat.mod_lt _ (by omega)) hdig
      omega

/-- `Nat.repr` is injective: distinct timestamps render distinctly. -/
theorem natRepr_injective (m n : Nat) (h : Nat.repr m = Nat.repr n) :
    m = n := by
  rw [repr_eq_decRepr, repr_eq_decRepr] at h
  exact decRepr_injective m n (by injection h)

/-- A list without the separator splits into the single field it is. -/
theorem splitOnChar_no_sep (sep : Char) :
    ∀ l : List Char, sep ∉ l → splitOnChar sep l = [l] := by
  intro l
  induction l with
  | nil => intro _; rfl
  | cons c rest ih =>
    intro h
    have hc : c ≠ sep := fun hcc => h (hcc ▸ List.mem_cons_self c rest)
    have hrest : sep ∉ rest := fun hm => h (List.mem_cons_of_mem c hm)
    rw [splitOnChar, ih hrest]
    simp [hc]

/-- C7: `generateFileName` on `"My File!.pdf"` at instant `T` is exactly
`"{T}-my-file.pdf"` (the `'!'` is stripped, the space becomes one hyphen,
the result is lower-cased and prefixed with the timestamp and a hyphen);
and for any declared name, calls at two distinct instants produce distinct
keys. -/
theorem generateFileName_determinism_uniqueness :
    (∀ T : Nat, generateFileName T "My File!.pdf" =
      Nat.repr T ++ "-my-file.pdf") ∧
    (∀ (name : String) (t1 t2 : Nat), t1 ≠ t2 →
      generateFileName t1 name ≠ generateFileName t2 name) := by
  constructor
  · intro T
    have hsan : sanitizeFileName "My File!.pdf" = "my-file.pdf" := by decide
    simp only [generateFileName, hsan]
    have hx : String.mk (stripDotExt ("my-file.pdf" : String).toList) =
        "my-file" := by decide
    have hy : String.mk ((splitOnChar '.'
        ("my-file.pdf" : String).toList).getLastD []) = "pdf" := by decide
    rw [hx, hy]
    apply congrArg String.mk ∘ id
    show (Nat.repr T ++ "-" ++ "my-file" ++ "." ++ "pdf").data =
      (Nat.repr T ++ "-my-file.pdf").data
    simp [String.data_append]
  · intro name t1 t2 hne heq
    apply hne
    have hdata := congrArg String.data heq
    simp only [generateFileName, String.data_append, List.append_assoc]
      at hdata
    have hrep : (Nat.repr t1).data = (Nat.repr t2).data :=
      List.append_cancel_right hdata
    exact natRepr_injective t1 t2 (congrArg String.mk hrep)

/-- C7 witness: the fixed input at instants 3 and 4. -/
theorem generateFileName_determinism_uniqueness_witness :
    generateFileName 3 "My File!.pdf" = Nat.repr 3 ++ "-my-file.pdf" ∧
    generateFileName 3 "My File!.pdf" ≠ generateFileName 4 "My File!.pdf" :=
  ⟨generateFileName_determinism_uniqueness.1 3,
    generateFileName_determinism_uniqueness.2 "My File!.pdf" 3 4
      (by decide)⟩

/-- C9: when the sanitized name has no `'.'`, the whole sanitized name is
used both as stem and as extension, so the key has the shape
`"{timestamp}-{name}.{name}"`. -/
theorem generateFileName_no_dot (t : Nat) (name : String)
    (h : '.' ∉ (sanitizeFileName name).toList) :
    generateFileName t name =
      Nat.repr t ++ "-" ++ sanitizeFileName name ++ "." ++
        sanitizeFileName name := by
  simp only [generateFileName, splitOnChar_no_sep '.' _ h, stripDotExt]
  simp

/-- C9 witness: `"report"` has no dot after sanitization. -/
theorem generateFileName_no_dot_witness :
    '.' ∉ (sanitizeFileName "report").toList ∧
    generateFileName 7 "report" =
      Nat.repr 7 ++ "-" ++ sanitizeFileName "report" ++ "." ++
        sanitizeFileName "report" :=
  ⟨by decide, generateFileName_no_dot 7 "report" (by decide)⟩

/-- C10: for every POST request the rate limiter runs first: the final map
is exactly the one produced by the `isRateLimited` call made at entry —
whatever the later checks decide — and in particular a fresh key's budget
is consumed (count 1 installed) even when the request is then rejected as
malformed, too large, or not a PDF. -/
theorem rate_limiter_runs_first (now : Nat) (dec : String → List Nat)
    (oracle : StorageOracle) (st : RateState) (req : UploadRequest)
    (hm : req.method = "POST") :
    (handler now dec oracle st req).2.1 =
      (isRateLimited now st (getClientIP req.xForwardedFor req.xRealIP)).2 ∧
    (st (getClientIP req.xForwardedFor req.xRealIP) = none →
      (handler now dec oracle st req).2.1
        (getClientIP req.xForwardedFor req.xRealIP) =
        some ⟨1, now + WINDOW_DURATION⟩) := by
  have hmain : (handler now dec oracle st req).2.1 =
      (isRateLimited now st (getClientIP req.xForwardedFor req.xRealIP)).2 := by
    simp only [handler, hm]
    repeat' split <;> try rfl
    all_goals simp_all
  refine ⟨hmain, fun hfresh => ?_⟩
  rw [hmain]
  exact (isRateLimited_fresh now st _ hfresh).2

/-- C10 witness: a POST with no usable body still consumes the fresh
client's budget. -/
theorem rate_limiter_runs_first_witness :
    (handler 0 (fun _ => []) ⟨none, none, none⟩ (fun _ => none)
      ⟨"POST", none, none, none, none⟩).2.1 (getClientIP none none) =
      some ⟨1, 0 + WINDOW_DURATION⟩ :=
  (rate_limiter_runs_first 0 (fun _ => []) ⟨none, none, none⟩ (fun _ => none)
    ⟨"POST", none, none, none, none⟩ rfl).2 rfl

/-- C1 counterexample: a candidate whose decoded bytes `"NOTPDF"` fail the
magic-number check but whose declared size exceeds 5 MiB is rejected as
`File too large. Max size is 5MB.`, not `Invalid PDF file` — the response
is NOT independent of the declared size. -/
theorem invalid_pdf_oversize_counterexample :
    validatePDF ((fun _ => [78, 79, 84, 80, 68, 70])
      ("Tk9UUERG" : String)) = false ∧
    (handler 0 (fun _ => [78, 79, 84, 80, 68, 70]) ⟨none, some "v", some "d"⟩
      (fun _ => none)
      ⟨"POST", none, none, some "multipart/form-data",
        some ⟨"Tk9UUERG", "evil.pdf", maxSize + 1⟩⟩).1 =
      .errorResp 400 "File too large. Max size is 5MB." ∧
    (handler 0 (fun _ => [78, 79, 84, 80, 68, 70]) ⟨none, some "v", some "d"⟩
      (fun _ => none)
      ⟨"POST", none, none, some "multipart/form-data",
        some ⟨"Tk9UUERG", "evil.pdf", maxSize + 1⟩⟩).1 ≠
      .errorResp 400 "Invalid PDF file" := by
  refine ⟨by decide, by decide, by decide⟩

/-- C1 (amended): for a POST request that is admitted by the rate limiter,
passes the transport content-type gate and the presence checks, and whose
declared size is within the 5 MiB limit, a decoded buffer whose first four
bytes are not `%PDF` is rejected 400 `Invalid PDF file`; the handler reads
no per-candidate declared content type at all, so the outcome cannot
depend on one. -/
theorem invalid_pdf_gate (now : Nat) (dec : String → List Nat)
    (oracle : StorageOracle) (st : RateState) (req : UploadRequest)
    (body : UploadBody)
    (hm : req.method = "POST")
    (hrl : (isRateLimited now st
      (getClientIP req.xForwardedFor req.xRealIP)).1 = false)
    (hct : contentTypeOk req.contentType = true)
    (hb : req.body = some body)
    (hfd : body.fileData ≠ "") (hfn : body.fileName ≠ "")
    (hsz : body.fileSize ≤ maxSize)
    (hpdf : (dec body.fileData).take 4 ≠ [37, 80, 68, 70]) :
    (handler now dec oracle st req).1 =
      .errorResp 400 "Invalid PDF file" := by
  have hsz' : ¬ (body.fileSize > maxSize) := Nat.not_lt.mpr hsz
  have hv : validatePDF (dec body.fileData) = false := by
    simpa [validatePDF] using hpdf
  simp [handler, hm, hrl, hct, hb, hfd, hfn, hsz', hv]

/-- C1 (amended) witness. -/
theorem invalid_pdf_gate_witness :
    (handler 0 (fun _ => [78, 79, 84, 80, 68, 70]) ⟨none, some "v", some "d"⟩
      (fun _ => none)
      ⟨"POST", none, none, some "multipart/form-data",
        some ⟨"Tk9UUERG", "evil.pdf", 6⟩⟩).1 =
      .errorResp 400 "Invalid PDF file" :=
  invalid_pdf_gate 0 (fun _ => [78, 79, 84, 80, 68, 70])
    ⟨none, some "v", some "d"⟩ (fun _ => none)
    ⟨"POST", none, none, some "multipart/form-data",
      some ⟨"Tk9UUERG", "evil.pdf", 6⟩⟩
    ⟨"Tk9UUERG", "evil.pdf", 6⟩ rfl (by decide) (by decide) rfl
    (by decide) (by decide) (by decide) (by decide)

/-- C6: under the same admission prefix, a declared size strictly above
5 MiB is rejected 400 `File too large. Max size is 5MB.` no matter what
the bytes decode to (in particular even for a genuine `%PDF` buffer),
while a declared size of exactly 5 MiB never produces that rejection. -/
theorem file_size_gate (now : Nat) (dec : String → List Nat)
    (oracle : StorageOracle) (st : RateState) (req : UploadRequest)
    (body : UploadBody)
    (hm : req.method = "POST")
    (hrl : (isRateLimited now st
      (getClientIP req.xForwardedFor req.xRealIP)).1 = false)
    (hct : contentTypeOk req.contentType = true)
    (hb : req.body = some body)
    (hfd : body.fileData ≠ "") (hfn : body.fileName ≠ "") :
    (maxSize < body.fileSize →
      (handler now dec oracle st req).1 =
        .errorResp 400 "File too large. Max size is 5MB.") ∧
    (body.fileSize = maxSize →
      (handler now dec oracle st req).1 ≠
        .errorResp 400 "File too large. Max size is 5MB.") := by
  constructor
  · intro hbig
    simp [handler, hm, hrl, hct, hb, hfd, hfn, hbig]
  · intro heq
    have hsz' : ¬ (body.fileSize > maxSize) := by omega
    simp [handler, hm, hrl, hct, hb, hfd, hfn, hsz']
    by_cases hv : validatePDF (dec body.fileData) <;>
      cases hue : oracle.uploadError <;>
      cases hvu : oracle.viewUrl <;>
      cases hdu : oracle.downloadUrl <;>
      simp_all

/-- C6 witness: declared size `maxSize + 1` versus exactly `maxSize`, both
with a genuine `%PDF` buffer. -/
theorem file_size_gate_witness :
    (handler 0 (fun _ => [37, 80, 68, 70]) ⟨none, some "v", some "d"⟩
      (fun _ => none)
      ⟨"POST", none, none, some "multipart/form-data",
        some ⟨"JVBERg", "a.pdf", maxSize + 1⟩⟩).1 =
      .errorResp 400 "File too large. Max size is 5MB." ∧
    (handler 0 (fun _ => [37, 80, 68, 70]) ⟨none, some "v", some "d"⟩
      (fun _ => none)
      ⟨"POST", none, none, some "multipart/form-data",
        some ⟨"JVBERg", "a.pdf", maxSize⟩⟩).1 ≠
      .errorResp 400 "File too large. Max size is 5MB." :=
  ⟨(file_size_gate 0 (fun _ => [37, 80, 68, 70]) ⟨none, some "v", some "d"⟩
      (fun _ => none)
      ⟨"POST", none, none, some "multipart/form-data",
        some ⟨"JVBERg", "a.pdf", maxSize + 1⟩⟩
      ⟨"JVBERg", "a.pdf", maxSize + 1⟩ rfl (by decide) (by decide) rfl
      (by decide) (by decide)).1 (by decide),
   (file_size_gate 0 (fun _ => [37, 80, 68, 70]) ⟨none, some "v", some "d"⟩
      (fun _ => none)
      ⟨"POST", none, none, some "multipart/form-data",
        some ⟨"JVBERg", "a.pdf", maxSize⟩⟩
      ⟨"JVBERg", "a.pdf", maxSize⟩ rfl (by decide) (by decide) rfl
      (by decide) (by decide)).2 rfl⟩

/-- C5: gateway short-circuiting.  A 400 `Invalid PDF file` response comes
with an empty storage-call trace (in particular no `put` was attempted),
and a 500 `Upload failed` response — a failed `put` — comes with a trace
containing no `signUrl` call. -/
theorem gateway_short_circuits (now : Nat) (dec : String → List Nat)
    (oracle : StorageOracle) (st : RateState) (req : UploadRequest) :
    ((handler now dec oracle st req).1 =
        .errorResp 400 "Invalid PDF file" →
      (handler now dec oracle st req).2.2 = []) ∧
    ((handler now dec oracle st req).1 =
        .errorResp 500 "Upload failed" →
      ∀ k d, StorageCall.signUrl k d ∉
        (handler now dec oracle st req).2.2) := by
  by_cases h1 : req.method ≠ "POST"
  · simp [handler, h1]
  · by_cases h2 : (isRateLimited now st
        (getClientIP req.xForwardedFor req.xRealIP)).1 = true
    · simp [handler, h1, h2]
    · by_cases h3 : contentTypeOk req.contentType
      · cases hb : req.body with
        | none => simp [handler, h1, h2, h3, hb]
        | some body =>
          by_cases h4 : body.fileData = "" ∨ body.fileName = ""
          · simp [handler, h1, h2, h3, hb, h4]
          · by_cases h5 : body.fileSize > maxSize
            · simp [handler, h1, h2, h3, hb, h4, h5]
            · by_cases h6 : validatePDF (dec body.fileData)
              · cases hue : oracle.uploadError with
                | some e =>
                  simp [handler, h1, h2, h3, hb, h4, h5, h6, hue]
                | none =>
                  cases hvu : oracle.viewUrl <;>
                    cases hdu : oracle.downloadUrl <;>
                    simp [handler, h1, h2, h3, hb, h4, h5, h6, hue, hvu, hdu]
              · simp [handler, h1, h2, h3, hb, h4, h5, h6]
      · simp [handler, h1, h2, h3]

/-- C5 witness: a non-PDF candidate produces an empty trace; a request
whose `put` fails produces a trace without `signUrl`. -/
theorem gateway_short_circuits_witness :
    (handler 0 (fun _ => [78, 79, 84]) ⟨none, some "v", some "d"⟩
      (fun _ => none)
      ⟨"POST", none, none, some "multipart/form-data",
        some ⟨"Tk9U", "a.pdf", 3⟩⟩).2.2 = [] ∧
    StorageCall.signUrl "k" false ∉
      (handler 0 (fun _ => [37, 80, 68, 70]) ⟨some "boom", some "v", some "d"⟩
        (fun _ => none)
        ⟨"POST", none, none, some "multipart/form-data",
          some ⟨"JVBERg", "a.pdf", 4⟩⟩).2.2 :=
  ⟨(gateway_short_circuits 0 (fun _ => [78, 79, 84]) ⟨none, some "v", some "d"⟩
      (fun _ => none)
      ⟨"POST", none, none, some "multipart/form-data",
        some ⟨"Tk9U", "a.pdf", 3⟩⟩).1 (by decide),
   (gateway_short_circuits 0 (fun _ => [37, 80, 68, 70])
      ⟨some "boom", some "v", some "d"⟩ (fun _ => none)
      ⟨"POST", none, none, some "multipart/form-data",
        some ⟨"JVBERg", "a.pdf", 4⟩⟩).2 (by decide) "k" false⟩

/-- C8 counterexample: the forwarded-address header is present with value
`",10.0.0.1"`, whose first comma-separated value is the empty string; the
claim prescribes that value, but the code falls through `||` (empty string
is falsy) and returns the sentinel `"unknown"`. -/
theorem client_key_counterexample :
    getClientIP (some ",10.0.0.1") none = "unknown" ∧
    clientKeySpec (some ",10.0.0.1") none = "" ∧
    getClientIP (some ",10.0.0.1") none ≠
      clientKeySpec (some ",10.0.0.1") none := by
  refine ⟨by decide, by decide, by decide⟩

/-- C8 (amended): client-identity derivation is a total function of the
two headers and equals the amended preference order: the first
comma-separated value of the forwarded-address header when that value is
non-empty; else the real-address header when present and non-empty; else
the sentinel `"unknown"`. -/
theorem client_key_amended_correct (xff xrip : Option String) :
    getClientIP xff xrip = clientKeyAmended xff xrip := by
  cases xff <;> cases xrip <;>
    simp only [getClientIP, clientKeyAmended, realIPFallback] <;>
    repeat' split <;> simp_all
